import Mathlib

/-!
Verification development for the USSP-GCMs teaching repository.

The repository consists of exploratory Jupyter notebooks doing gridded
climate-data analysis with xarray/numpy (area-weighted means, a
cumulative-sum poleward heat-transport estimate, cloud radiative forcing
as field differences, comparison plots) together with a single shell
script that downloads and unpacks a fixed data archive.

We shallowly embed the relevant computations: grid values are real
numbers, gridded fields are functions from (abstract) index types to the
reals, the numpy cumulative sum is a recursive function, and the shell
script is a fixed list of commands run under bash semantics (no `set -e`:
every command executes, the script status is the last command's status).
-/

namespace USSP

/-! ## The download script (`download_data.sh`)

The script is four commands run in sequence by bash without `set -e` and
without any conditional: two `echo`s, one `wget` of a fixed URL, one
`tar` extraction.  Bash runs each command in turn regardless of the
previous exit status, and the script's exit status is the status of the
last command executed. -/

/-- A shell command as it appears in `download_data.sh`. -/
inductive Cmd where
  | echoCmd : String → Cmd
  | wget : String → Cmd
  | tarx : String → Cmd
deriving DecidableEq, Repr

/-- The fixed archive URL hard-coded in the script. -/
def archiveURL : String := "http://wilma.to.isac.cnr.it/diss/paolo/ussp/ussp_data.tar.gz"

/-- The command list of `download_data.sh`, in source order. -/
def downloadScript : List Cmd :=
  [ Cmd.echoCmd "Download the USSP data",
    Cmd.wget archiveURL,
    Cmd.echoCmd "Unpack the USSP data",
    Cmd.tarx "ussp_data.tar.gz" ]

/-- Bash semantics for a straight-line script without `set -e`: run the
commands in order (an environment `exits` gives each command's exit
status), record the executed commands, and return the status of the last
command (`code` carries the status so far; a script with no commands
exits with status 0). -/
def runCmds (exits : Cmd → Nat) : List Cmd → Nat → List Cmd × Nat
  | [], code => ([], code)
  | c :: rest, _ =>
      let r := runCmds exits rest (exits c)
      (c :: r.1, r.2)

/-- Execute `download_data.sh` under an exit-status environment. -/
def runScript (exits : Cmd → Nat) : List Cmd × Nat :=
  runCmds exits downloadScript 0

/-- The URLs downloaded by a list of commands. -/
def wgetURLs : List Cmd → List String
  | [] => []
  | Cmd.wget u :: rest => u :: wgetURLs rest
  | _ :: rest => wgetURLs rest

/-- The archives unpacked by a list of commands. -/
def tarTargets : List Cmd → List String
  | [] => []
  | Cmd.tarx f :: rest => f :: tarTargets rest
  | _ :: rest => tarTargets rest

/-! ## File accesses performed by the repository

Every data-file access in the notebooks is an `xr.open_dataset` or
`xr.open_mfdataset` call (reads); `xr.merge` combines in-memory datasets
and touches no file.  No cell writes, modifies or deletes a data file. -/

/-- The mode of a file access. -/
inductive FileMode where
  | read
  | write
  | delete
deriving DecidableEq, Repr

/-- One file access appearing in the repository sources. -/
structure FileAccess where
  path : String
  mode : FileMode
deriving DecidableEq, Repr

/-- All data-file accesses in the notebooks, in source order:
`xr.open_dataset` / `xr.open_mfdataset` calls from `1-DataAnalysis.ipynb`,
the radiation-budget notebook and the paleoclimate notebook. -/
def repoFileAccesses : List FileAccess :=
  [ ⟨"ussp/tas_EC-Earth3_historical_r1p1if1_1850-2014.nc", FileMode.read⟩,
    ⟨"ussp/tas_ERA5_1940-2022.nc", FileMode.read⟩,
    ⟨"ussp/r*EC-Earth*.nc", FileMode.read⟩,
    ⟨"ussp/clt*EC-Earth*.nc", FileMode.read⟩,
    ⟨"ussp/CERES-2020-2022.nc", FileMode.read⟩,
    ⟨"ussp/h*EC-Earth*.nc", FileMode.read⟩,
    ⟨"ussp/*AWI*historical*.nc", FileMode.read⟩,
    ⟨"ussp/*AWI*lgm*.nc", FileMode.read⟩,
    ⟨"ussp/*AWI*lig*.nc", FileMode.read⟩ ]

/-! ## Grid arithmetic from the radiation-budget notebook

Grid values are reals; a zonal-mean field is a function from the latitude
index (array order, southernmost first on the CDO-interpolated regular
grid) to ℝ; a lon-lat field is a function of the two indices; a
time-dependent field additionally takes the time index. -/

/-- `np.deg2rad`: degrees to radians. -/
noncomputable def deg2rad (x : ℝ) : ℝ := x * Real.pi / 180

/-- The Earth radius constant of the notebook (`Earth = 6370000`). -/
def Earth : ℝ := 6370000

/-- `dlat = math.pi*Earth/len(zonal_toa.lat)`: the meridional grid
spacing in metres for `n` latitudes. -/
noncomputable def dlat (n : ℕ) : ℝ := Real.pi * Earth / n

/-- `dlon = 2*math.pi*Earth*np.cos(np.deg2rad(lat))`: the length of the
latitude circle at latitude `lat` (degrees). -/
noncomputable def dlon (lat : ℝ) : ℝ := 2 * Real.pi * Earth * Real.cos (deg2rad lat)

/-- `np.cumsum` along an axis: `cumsum f i` is the running sum of
`f 0, …, f i`. -/
noncomputable def cumsum (f : ℕ → ℝ) : ℕ → ℝ
  | 0 => f 0
  | i + 1 => cumsum f i + f (i + 1)

/-- The unweighted mean of a zonal field over its `n` latitudes
(`zonal_toa.mean()`). -/
noncomputable def zonalMean (n : ℕ) (zonal : ℕ → ℝ) : ℝ :=
  (∑ j in Finset.range n, zonal j) / n

/-- `global_transport = (np.cumsum(zonal_toa - zonal_toa.mean()))*dlon*dlat/10**15`:
the poleward heat-transport estimate at latitude index `i`, for a
zonal-mean net-TOA field `zonal` on `n` latitudes with latitude values
`lat` (degrees). The product with the `dlon` vector is elementwise. -/
noncomputable def global_transport (n : ℕ) (lat zonal : ℕ → ℝ) (i : ℕ) : ℝ :=
  cumsum (fun j => zonal j - zonalMean n zonal) i * dlon (lat i) * dlat n / 10 ^ 15

/-- `area_weights = np.cos(np.deg2rad(lat))`: the cosine-latitude weight
of latitude index `j`. -/
noncomputable def area_weights (lat : ℕ → ℝ) (j : ℕ) : ℝ :=
  Real.cos (deg2rad (lat j))

/-- The flattened list of (lon index, lat index) cells of an
`nlon × nlat` grid, as the array library enumerates them. -/
def cellList (nlon nlat : ℕ) : List (ℕ × ℕ) :=
  (List.range nlon).flatMap fun i => (List.range nlat).map fun j => (i, j)

/-- `x.weighted(w).mean(dim=['lon','lat'])`: the sum of the weighted
values over all cells, divided by the sum of the weights broadcast over
all cells (the xarray weighted-mean contract). -/
noncomputable def weightedSpatialMean (nlon nlat : ℕ) (w : ℕ → ℝ) (x : ℕ → ℕ → ℝ) : ℝ :=
  ((cellList nlon nlat).map fun p => w p.2 * x p.1 p.2).sum /
    ((cellList nlon nlat).map fun p => w p.2).sum

/-! ### Time selection and cloud radiative forcing -/

/-- `.sel(time=slice(t0, t1))` on a time axis of `n` steps: the indices
of the selected period, in order. -/
def selTimes (t0 t1 n : ℕ) : List ℕ :=
  (List.range n).filter fun t => decide (t0 ≤ t) && decide (t ≤ t1)

/-- `.mean(dim='time')` over an explicit list of selected time steps,
pointwise in the spatial index `p`. -/
noncomputable def timeMean {α : Type} (ts : List ℕ) (f : ℕ → α → ℝ) (p : α) : ℝ :=
  (ts.map fun t => f t p).sum / ts.length

/-- `long_crf = (dataset['rlutcs']-dataset['rlut']).sel(time=slice(...)).mean(dim='time')`. -/
noncomputable def long_crf {α : Type} (rlutcs rlut : ℕ → α → ℝ) (t0 t1 n : ℕ) (p : α) : ℝ :=
  timeMean (selTimes t0 t1 n) (fun t q => rlutcs t q - rlut t q) p

/-- `short_crf = (dataset['rsutcs']-dataset['rsut']).sel(time=slice(...)).mean(dim='time')`. -/
noncomputable def short_crf {α : Type} (rsutcs rsut : ℕ → α → ℝ) (t0 t1 n : ℕ) (p : α) : ℝ :=
  timeMean (selTimes t0 t1 n) (fun t q => rsutcs t q - rsut t q) p

/-! ## Coordinate-labelled fields and alignment (the xarray contract)

For the bias computation (`bias = right_ece - right_ceres`) and for
`bias.weighted(area_weights)` the notebook combines fields coming from
different datasets, relying on the library's alignment rules: the
operation is meaningful exactly when the coordinate axes are compatible.
We model a field as carrying its coordinate labels; binary arithmetic is
fallible and succeeds precisely on compatible axes, with no other
validation. -/

/-- A 2-D gridded field: its latitude and longitude coordinate labels
(degrees, as rationals) and a value at each pair of labels. -/
structure GriddedField where
  latc : List ℚ
  lonc : List ℚ
  vals : ℚ → ℚ → ℝ

/-- A 1-D weight axis (`area_weights`), carrying the latitude labels of
the dataset it was derived from. -/
structure WeightAxis where
  latc : List ℚ
  w : ℚ → ℝ

/-- Elementwise difference of two coordinate-labelled fields: defined
exactly when the coordinate axes coincide (aligned operands); no other
validation is performed. -/
noncomputable def fieldSub (f g : GriddedField) : Option GriddedField :=
  if f.latc = g.latc ∧ f.lonc = g.lonc then
    some ⟨f.latc, f.lonc, fun la lo => f.vals la lo - g.vals la lo⟩
  else none

/-- `field.weighted(aw).mean()`: the cosine-latitude-weighted mean of a
field under a weight axis from a possibly different dataset, the weights
broadcast along longitude; defined exactly when the weight axis matches
the field's latitude axis. -/
noncomputable def weightedByAxis (f : GriddedField) (aw : WeightAxis) : Option ℝ :=
  if aw.latc = f.latc then
    some (((f.latc.flatMap fun la => f.lonc.map fun lo => aw.w la * f.vals la lo).sum) /
      ((f.latc.flatMap fun la => f.lonc.map fun _ => aw.w la).sum))
  else none

/-! ## `compare_plot` (paleoclimate notebook)

`compare_plot(field1, field2, vmin, vmax)` builds a figure of two panels:
`field1` itself (with the given `vmin`/`vmax`, default colormap, titled
with the field's name) and `field1 - field2` (colormap `'seismic'`,
titled `'DELTA'`); the cells that would plot `field2` as its own panel
are commented out in the source.  We model the figure as the list of
panels produced, and make the absence of mutation explicit by returning
the input fields alongside. -/

/-- Which expression a panel renders. -/
inductive PanelSrc where
  | firstField
  | secondField
  | deltaField
deriving DecidableEq, Repr

/-- A named gridded field handed to `compare_plot` (spatial index `ι`). -/
structure NamedField (ι : Type) where
  name : String
  vals : ι → ℝ

/-- One rendered panel: its source expression, the plotted data, the
colour-range bounds, the colormap (`none` = library default) and the
title. -/
structure Panel (ι : Type) where
  src : PanelSrc
  data : ι → ℝ
  vmin : Option ℝ
  vmax : Option ℝ
  cmap : Option String
  title : String

/-- `compare_plot`: the list of panels rendered, together with the
(unchanged) input fields. -/
def compare_plot {ι : Type} (field1 field2 : NamedField ι) (vmin vmax : Option ℝ) :
    List (Panel ι) × NamedField ι × NamedField ι :=
  ([ ⟨PanelSrc.firstField, field1.vals, vmin, vmax, none, field1.name⟩,
     ⟨PanelSrc.deltaField, fun p => field1.vals p - field2.vals p,
       none, none, some "seismic", "DELTA"⟩ ],
   field1, field2)

/-! ## Lazy evaluation (xarray/dask) and materialization

`net_toa.mean(dim='time')` builds a deferred expression; `.compute()`
materializes its value in memory; `.plot()` evaluates the expression on
first use.  We model expressions as a small AST with an evaluator;
materialization replaces the expression by its stored value. -/

/-- A deferred field expression over time-dependent data. -/
inductive FieldExpr (α : Type) where
  | source : (ℕ → α → ℝ) → FieldExpr α
  | sub : FieldExpr α → FieldExpr α → FieldExpr α
  | meanTime : ℕ → FieldExpr α → FieldExpr α
  | materialized : (ℕ → α → ℝ) → FieldExpr α

/-- Evaluate a deferred expression to concrete values (the time mean is
constant along the collapsed time axis). -/
noncomputable def evalExpr {α : Type} : FieldExpr α → ℕ → α → ℝ
  | FieldExpr.source f => f
  | FieldExpr.sub a b => fun t p => evalExpr a t p - evalExpr b t p
  | FieldExpr.meanTime n e => fun _ p => (∑ t in Finset.range n, evalExpr e t p) / n
  | FieldExpr.materialized f => f

/-- `.compute()`: eagerly materialize the expression's value. -/
noncomputable def computeExpr {α : Type} (e : FieldExpr α) : FieldExpr α :=
  FieldExpr.materialized (evalExpr e)

/-- `.plot()` evaluates its argument on first use; the rendered values
are the evaluation of the expression at plot time. -/
noncomputable def plotValues {α : Type} (e : FieldExpr α) : ℕ → α → ℝ :=
  evalExpr e

/-- `net_toa = dataset['rsdt']-dataset['rlut']-dataset['rsut']` as a
deferred expression. -/
noncomputable def netToaExpr {α : Type} (rsdt rlut rsut : ℕ → α → ℝ) : FieldExpr α :=
  FieldExpr.sub (FieldExpr.sub (FieldExpr.source rsdt) (FieldExpr.source rlut))
    (FieldExpr.source rsut)

/-- `net_toa.mean(dim='time')` over `ntime` steps, still deferred. -/
noncomputable def toaClimExpr {α : Type} (ntime : ℕ) (rsdt rlut rsut : ℕ → α → ℝ) :
    FieldExpr α :=
  FieldExpr.meanTime ntime (netToaExpr rsdt rlut rsut)

/-! ## Datasets as immutable collections of fields -/

/-- The TOA radiation variables of the opened dataset. -/
structure RadDataset (α : Type) where
  rsdt : ℕ → α → ℝ
  rlut : ℕ → α → ℝ
  rsut : ℕ → α → ℝ

/-- `net_toa = dataset['rsdt']-dataset['rlut']-dataset['rsut']` with the
dataset state passed explicitly: the operation reads the three variables
and returns the dataset alongside the newly produced field. -/
noncomputable def computeNetToa {α : Type} (ds : RadDataset α) :
    RadDataset α × (ℕ → α → ℝ) :=
  (ds, fun t p => ds.rsdt t p - ds.rlut t p - ds.rsut t p)

end USSP

namespace USSP

/-! ## Helper lemmas -/

theorem cumsum_eq_sum (f : ℕ → ℝ) (i : ℕ) :
    cumsum f i = ∑ j in Finset.range (i + 1), f j := by
  induction i with
  | zero => simp [cumsum]
  | succ m ih => rw [cumsum, ih, ← Finset.sum_range_succ]

theorem list_range_map_sum (n : ℕ) (f : ℕ → ℝ) :
    ((List.range n).map f).sum = ∑ j in Finset.range n, f j := by
  induction n with
  | zero => simp
  | succ m ih => simp [List.range_succ, Finset.sum_range_succ, ih]

theorem cellList_map_sum (nlon nlat : ℕ) (f : ℕ × ℕ → ℝ) :
    ((cellList nlon nlat).map f).sum =
      ∑ i in Finset.range nlon, ∑ j in Finset.range nlat, f (i, j) := by
  rw [cellList, ← list_range_map_sum nlon fun i => ∑ j in Finset.range nlat, f (i, j)]
  induction (List.range nlon) with
  | nil => simp
  | cons a t ih =>
      simp only [List.flatMap_cons, List.map_append, List.sum_append, List.map_cons,
        List.sum_cons, List.map_map, ih]
      rw [← list_range_map_sum nlat fun j => f (a, j)]
      rfl

theorem list_sum_map_sub {α : Type} (ts : List α) (u v : α → ℝ) :
    (ts.map fun t => u t - v t).sum = (ts.map u).sum - (ts.map v).sum := by
  induction ts with
  | nil => simp
  | cons a t ih => simp [ih]; ring

theorem timeMean_sub {α : Type} (ts : List ℕ) (f g : ℕ → α → ℝ) (p : α) :
    timeMean ts (fun t q => f t q - g t q) p = timeMean ts f p - timeMean ts g p := by
  simp only [timeMean, list_sum_map_sub, sub_div]

/-! ## Claim theorems -/

/-- C1: at every latitude index `i` the poleward heat-transport estimate
equals the running sum, from the southernmost latitude (index 0)
northward through index `i`, of the mean-removed zonal-mean net TOA
radiation, multiplied by the area element `dlon*dlat` with
`dlon = 2*pi*6370000*cos(latitude)` and `dlat = pi*6370000/n`, divided
by `10^15`. -/
theorem global_transport_cumulative_integral
    (n : ℕ) (lat zonal : ℕ → ℝ) (i : ℕ) :
    global_transport n lat zonal i =
      (∑ j in Finset.range (i + 1),
          (zonal j - (∑ k in Finset.range n, zonal k) / n)) *
        (2 * Real.pi * 6370000 * Real.cos (deg2rad (lat i))) *
        (Real.pi * 6370000 / n) / 10 ^ 15 := by
  rw [global_transport, cumsum_eq_sum]
  simp only [zonalMean, dlon, dlat, Earth]

/-- C2: the area-weighted spatial mean with cosine-latitude weights
equals the sum over all grid cells of `cos(lat) * x` divided by the sum
over all grid cells of `cos(lat)`. -/
theorem weighted_mean_cosine_latitude
    (nlon nlat : ℕ) (lat : ℕ → ℝ) (x : ℕ → ℕ → ℝ) :
    weightedSpatialMean nlon nlat (area_weights lat) x =
      (∑ i in Finset.range nlon, ∑ j in Finset.range nlat,
          Real.cos (deg2rad (lat j)) * x i j) /
        (∑ i in Finset.range nlon, ∑ j in Finset.range nlat,
          Real.cos (deg2rad (lat j))) := by
  rw [weightedSpatialMean, cellList_map_sum, cellList_map_sum]
  rfl

/-- C3: for every selected time period, the longwave CRF equals the time
mean of `rlutcs` minus `rlut` over the period — both as the time mean of
the pointwise difference and, equivalently, as the difference of the two
time means — and the shortwave CRF likewise for `rsutcs` and `rsut`. -/
theorem crf_clear_minus_all_sky {α : Type}
    (rlutcs rlut rsutcs rsut : ℕ → α → ℝ) (t0 t1 n : ℕ) (p : α) :
    long_crf rlutcs rlut t0 t1 n p =
        timeMean (selTimes t0 t1 n) (fun t q => rlutcs t q - rlut t q) p ∧
      long_crf rlutcs rlut t0 t1 n p =
        timeMean (selTimes t0 t1 n) rlutcs p - timeMean (selTimes t0 t1 n) rlut p ∧
      short_crf rsutcs rsut t0 t1 n p =
        timeMean (selTimes t0 t1 n) (fun t q => rsutcs t q - rsut t q) p ∧
      short_crf rsutcs rsut t0 t1 n p =
        timeMean (selTimes t0 t1 n) rsutcs p - timeMean (selTimes t0 t1 n) rsut p := by
  refine ⟨rfl, ?_, rfl, ?_⟩
  · rw [long_crf, timeMean_sub]
  · rw [short_crf, timeMean_sub]

/-- C4: arithmetic between gridded fields is modelled as defined exactly
under the compatibility precondition and with no additional validation:
whenever the operands' coordinate axes are aligned, the field difference
is well-defined (succeeds), and whenever a weight axis derived from one
dataset matches the latitude axis of a field from another, the broadcast
weighted mean is well-defined. -/
theorem compatible_axes_arithmetic :
    (∀ f g : GriddedField, f.latc = g.latc → f.lonc = g.lonc →
      (fieldSub f g).isSome = true) ∧
    (∀ f : GriddedField, ∀ aw : WeightAxis, aw.latc = f.latc →
      (weightedByAxis f aw).isSome = true) := by
  constructor
  · intro f g h1 h2
    rw [fieldSub, if_pos ⟨h1, h2⟩]
    rfl
  · intro f aw h
    rw [weightedByAxis, if_pos h]
    rfl

/-- Witness for C4 at concrete aligned fields. -/
theorem compatible_axes_arithmetic_witness :
    (fieldSub ⟨[0], [0], fun _ _ => 0⟩ ⟨[0], [0], fun _ _ => 1⟩).isSome = true ∧
    (weightedByAxis ⟨[0], [0], fun _ _ => 0⟩ ⟨[0], fun _ => 1⟩).isSome = true :=
  ⟨compatible_axes_arithmetic.1 ⟨[0], [0], fun _ _ => 0⟩ ⟨[0], [0], fun _ _ => 1⟩ rfl rfl,
   compatible_axes_arithmetic.2 ⟨[0], [0], fun _ _ => 0⟩ ⟨[0], fun _ => 1⟩ rfl⟩

/-- C6: `compare_plot` renders exactly two panels — the first field with
the given `vmin`/`vmax` and its own name as title, and the difference
`field1 - field2` with the seismic colormap titled DELTA; the second
field is never rendered as its own panel, and both input fields are
returned unchanged. -/
theorem compare_plot_two_panels {ι : Type}
    (field1 field2 : NamedField ι) (vmin vmax : Option ℝ) :
    (compare_plot field1 field2 vmin vmax).1 =
        [ ⟨PanelSrc.firstField, field1.vals, vmin, vmax, none, field1.name⟩,
          ⟨PanelSrc.deltaField, fun p => field1.vals p - field2.vals p,
            none, none, some "seismic", "DELTA"⟩ ] ∧
      (compare_plot field1 field2 vmin vmax).1.length = 2 ∧
      PanelSrc.secondField ∉ (compare_plot field1 field2 vmin vmax).1.map Panel.src ∧
      (compare_plot field1 field2 vmin vmax).2.1 = field1 ∧
      (compare_plot field1 field2 vmin vmax).2.2 = field2 := by
  refine ⟨rfl, rfl, ?_, rfl, rfl⟩
  intro h
  simp [compare_plot] at h

/-- C7: materialization does not change results — the values rendered at
plot time from the eagerly computed time mean of the net TOA budget are
equal to the values rendered from the deferred expression, and in
general evaluating any materialized expression gives the expression's
own value. -/
theorem lazy_eager_equivalence {α : Type}
    (rsdt rlut rsut : ℕ → α → ℝ) (ntime : ℕ) :
    plotValues (computeExpr (toaClimExpr ntime rsdt rlut rsut)) =
        plotValues (toaClimExpr ntime rsdt rlut rsut) ∧
      (∀ e : FieldExpr α, plotValues (computeExpr e) = plotValues e) :=
  ⟨rfl, fun _ => rfl⟩

/-- C8: computing `net_toa = rsdt - rlut - rsut` produces a new field
from the dataset's variables and leaves the dataset — in particular the
variables `rsdt`, `rlut`, `rsut` — unchanged. -/
theorem net_toa_leaves_dataset_unchanged {α : Type} (ds : RadDataset α) :
    (computeNetToa ds).1 = ds ∧
      (computeNetToa ds).1.rsdt = ds.rsdt ∧
      (computeNetToa ds).1.rlut = ds.rlut ∧
      (computeNetToa ds).1.rsut = ds.rsut ∧
      (computeNetToa ds).2 = fun t p => ds.rsdt t p - ds.rlut t p - ds.rsut t p :=
  ⟨rfl, rfl, rfl, rfl, rfl⟩

/-- C5: The repository's only CLI is the single shell script: it takes no
flags, performs exactly one download, of the fixed archive URL, then
exactly one unpack of the downloaded archive; it has no error handling of
its own (the commands it executes do not depend on any exit status), and
its exit status is exactly what the underlying unpack tool returns, the
last of the underlying download/unpack tools to run. -/
theorem download_script_cli_shape :
    wgetURLs downloadScript = [archiveURL] ∧
    tarTargets downloadScript = ["ussp_data.tar.gz"] ∧
    (∀ e₁ e₂ : Cmd → Nat, (runScript e₁).1 = (runScript e₂).1) ∧
    (∀ exits : Cmd → Nat,
      (runScript exits).2 = exits (Cmd.tarx "ussp_data.tar.gz") ∧
      Cmd.tarx "ussp_data.tar.gz" ∈ downloadScript) := by
  refine ⟨rfl, rfl, ?_, ?_⟩
  · intro e₁ e₂
    rfl
  · intro exits
    exact ⟨rfl, by simp [downloadScript]⟩

/-- C10: the tar extraction is executed unconditionally — it appears in
the executed-command trace under every exit-status environment, in
particular whatever status the preceding `wget` returns — and the
script's overall exit status equals the exit status of the tar command
alone. -/
theorem download_script_tar_unconditional :
    ∀ exits : Cmd → Nat,
      Cmd.tarx "ussp_data.tar.gz" ∈ (runScript exits).1 ∧
      (runScript exits).2 = exits (Cmd.tarx "ussp_data.tar.gz") := by
  intro exits
  constructor
  · show Cmd.tarx "ussp_data.tar.gz" ∈ (runScript exits).1
    simp [runScript, runCmds, downloadScript]
  · rfl

/-- C9: every data-file access performed by the repository is a read:
no operation writes, modifies or deletes any data file. -/
theorem repo_file_accesses_read_only :
    repoFileAccesses.all (fun a => a.mode = FileMode.read) = true := by
  decide

end USSP
